import Mathlib

/-!
Shallow embedding of the Playwright-to-Xray reporting layer of this
repository: the Xray client variants (full, hybrid, read-only), the basic
and hybrid reporters, the configuration validator, and the Google home
page object.  Effectful methods are modelled as pure functions from an
oracle environment (deciding the outcome of each HTTP request) to a trace
of actions (log lines and HTTP requests) paired with the returned or
thrown value.  Statuses are plain strings, as in the source.
-/

set_option maxHeartbeats 1600000

/-- Actions observable in a run: log lines, the HTTP requests issued by the
Xray clients, and file writes.  Request constructors carry the payload
parts that the claims talk about (issue keys, execution test lists). -/
inductive Act where
  | log (level : String) (msg : String)
  | getIssue (key : String)
  | postIssue (projectKey : String) (summary : String)
  | putIssue (key : String) (jiraStatus : String)
  | postComment (key : String)
  | postExec (testKeys : List String)
  | writeFile (name : String)
deriving DecidableEq

/-- Oracle environment: decides the outcome of each HTTP request the
clients may issue, and supplies the values a successful response carries. -/
structure Env where
  findOk : String → Bool
  createIssueOk : Bool
  createdKey : String → String
  createErr : String
  putOk : String → Bool
  commentOk : String → Bool
  postExecOk : Bool
  postExecErr : String
  execKey : String
  fileExists : String → Bool
  nowMs : Nat

/-- Test result record accumulated by the reporters (interface
XrayTestResult in the source; evidence is absent on the entry written by
onTestBegin, hence the Option). -/
structure XrayTestResult where
  testKey : String
  status : String
  comment : Option String
  executionTime : Option Nat
  evidence : Option (List (Option String))
deriving DecidableEq

/-- Playwright TestCase fields the reporters read. -/
structure TestInfo where
  id : String
  title : String
  locationFile : Option String
deriving DecidableEq

/-- Playwright attachment: the path may be absent. -/
structure Attachment where
  path : Option String
deriving DecidableEq

/-- Playwright TestResult fields the reporters read. -/
structure PwResult where
  status : String
  duration : Option Nat
  errorMessage : Option String
  attachments : Option (List Attachment)
deriving DecidableEq

/-- Configuration record of XrayConfigManager. -/
structure XrayConfig where
  jiraBaseUrl : String
  jiraUsername : String
  jiraApiToken : String
  projectKey : String
deriving DecidableEq

/-- Reporter options object (only the fields the modelled code reads). -/
structure ReporterOptions where
  outputDir : Option String
deriving DecidableEq

/-- Internal state of a reporter instance: the results map (an association
list keyed by test id, in insertion order, as a JS Map iterates) and the
start time. -/
structure ReporterState where
  testResults : List (String × XrayTestResult)
  startTime : Nat
deriving DecidableEq

/-- JS truthiness fallback on an optional string (the pattern
a || b, where the empty string is falsy). -/
def jsOr (o : Option String) (d : String) : String :=
  match o with
  | some s => if s = "" then d else s
  | none => d

/-- JS truthiness fallback on an optional number against 0
(the pattern a || 0). -/
def jsOrZero (o : Option Nat) : Nat :=
  match o with
  | some n => n
  | none => 0

/-- Map.prototype.set on an association list: replace in place when the key
exists, append otherwise. -/
def mapSet (m : List (String × XrayTestResult)) (k : String) (v : XrayTestResult) :
    List (String × XrayTestResult) :=
  match m with
  | [] => [(k, v)]
  | (k₀, v₀) :: rest => if k₀ = k then (k, v) :: rest else (k₀, v₀) :: mapSet rest k v

/-- Predicate selecting the HTTP requests among actions. -/
def isHttpAction : Act → Bool
  | .log _ _ => false
  | .getIssue _ => true
  | .postIssue _ _ => true
  | .putIssue _ _ => true
  | .postComment _ => true
  | .postExec _ => true
  | .writeFile _ => false

/-- Predicate selecting issue-creation requests (POST /issue). -/
def isCreateIssueReq : Act → Bool
  | .postIssue _ _ => true
  | _ => false

/-- Predicate selecting comment-posting requests. -/
def isCommentReq : Act → Bool
  | .postComment _ => true
  | _ => false

/-- Predicate selecting execution-creation requests (POST /testexecution). -/
def isExecReq : Act → Bool
  | .postExec _ => true
  | _ => false

/-- Predicate selecting status-update PUT requests. -/
def isPutReq : Act → Bool
  | .putIssue _ _ => true
  | _ => false

/-- Validation of the Xray configuration
(XrayConfigManager.validateConfig): all four required fields must be
truthy, i.e. nonempty strings. -/
def validateConfig (cfg : XrayConfig) : Bool :=
  cfg.jiraBaseUrl ≠ "" && cfg.jiraUsername ≠ "" && cfg.jiraApiToken ≠ "" && cfg.projectKey ≠ ""

/-- JS String.prototype.split on - followed by [0]: the part of the key
before the first dash (project key extraction in createTestCase). -/
def projectKeyOf (testKey : String) : String :=
  (testKey.splitOn "-").headD ""

/-- First line of a string (String.prototype.split on a newline, index 0). -/
def firstLine (s : String) : String :=
  (s.splitOn "\n").headD ""

namespace XrayReporter

/-- Status mapping of the basic reporter (XrayReporter.mapTestStatus in
xray-reporter.js): a switch on the Playwright status string. -/
def mapTestStatus (playwrightStatus : String) : String :=
  if playwrightStatus = "passed" then "PASSED"
  else if playwrightStatus = "failed" then "FAILED"
  else if playwrightStatus = "skipped" then "SKIPPED"
  else if playwrightStatus = "timedOut" then "FAILED"
  else "FAILED"

end XrayReporter

namespace XrayReporterHybrid

/-- Status mapping of the hybrid reporter (XrayReporterHybrid.mapTestStatus
in xray-reporter-hybrid.js): a switch on the Playwright status string. -/
def mapTestStatus (playwrightStatus : String) : String :=
  if playwrightStatus = "passed" then "PASSED"
  else if playwrightStatus = "failed" then "FAILED"
  else if playwrightStatus = "skipped" then "SKIPPED"
  else if playwrightStatus = "timedOut" then "FAILED"
  else "FAILED"

end XrayReporterHybrid

namespace XrayClientFull

/-- Status translation of the full client
(XrayClientFull.mapXrayStatusToJira): a switch on the Xray status string
with To Do as the default arm. -/
def mapXrayStatusToJira (xrayStatus : String) : String :=
  if xrayStatus = "PASSED" then "Done"
  else if xrayStatus = "FAILED" then "In Progress"
  else if xrayStatus = "SKIPPED" then "To Do"
  else if xrayStatus = "TODO" then "To Do"
  else if xrayStatus = "EXECUTING" then "In Progress"
  else "To Do"

end XrayClientFull

namespace XrayClientHybrid

/-- Status translation of the hybrid client
(XrayClientHybrid.mapXrayStatusToJira): a switch on the Xray status string
with To Do as the default arm. -/
def mapXrayStatusToJira (xrayStatus : String) : String :=
  if xrayStatus = "PASSED" then "Done"
  else if xrayStatus = "FAILED" then "In Progress"
  else if xrayStatus = "SKIPPED" then "To Do"
  else if xrayStatus = "TODO" then "To Do"
  else if xrayStatus = "EXECUTING" then "In Progress"
  else "To Do"

end XrayClientHybrid

namespace XrayClientReadOnly

/-- Lookup of an issue by key (XrayClientReadOnly.findTestCase): a GET that
either yields the issue (modelled by its key) or, on an HTTP error such as
a 404, is caught, logged and turned into null. -/
def findTestCase (env : Env) (testKey : String) : List Act × Option String :=
  if env.findOk testKey then
    ([.log "info" ("Searching for test case: " ++ testKey),
      .getIssue testKey,
      .log "info" ("Found existing test case: " ++ testKey)], some testKey)
  else
    ([.log "info" ("Searching for test case: " ++ testKey),
      .getIssue testKey,
      .log "error" ("Failed to find test case " ++ testKey)], none)

/-- Verification loop at the top of
XrayClientReadOnly.createTestExecution: look every test up and keep the
ones whose test case exists, logging a warning for the rest. -/
def verifyLoop (env : Env) : List XrayTestResult → List Act × List XrayTestResult
  | [] => ([], [])
  | t :: rest =>
    let f := findTestCase env t.testKey
    let step : List Act × List XrayTestResult :=
      match f.2 with
      | some _ => ([.log "info" ("Test case " ++ t.testKey ++ " exists and is ready for execution")], [t])
      | none => ([.log "warn" ("Test case " ++ t.testKey ++ " not found - skipping")], [])
    let r := verifyLoop env rest
    (f.1 ++ step.1 ++ r.1, step.2 ++ r.2)

/-- Creation of a test execution in read-only mode
(XrayClientReadOnly.createTestExecution): verify the listed test cases,
throw when none exists, otherwise POST the execution with only the
existing tests; every thrown error is logged by the catch and rethrown. -/
def createTestExecution (env : Env) (tests : List XrayTestResult) :
    List Act × Except String String :=
  let v := verifyLoop env tests
  if v.2.isEmpty then
    (v.1 ++ [.log "error" "Failed to create test execution: Error: No existing test cases found to execute"],
     .error "No existing test cases found to execute")
  else
    if env.postExecOk then
      (v.1 ++ [.postExec (v.2.map (fun t => t.testKey)),
        .log "info" ("Created test execution: " ++ env.execKey)], .ok env.execKey)
    else
      (v.1 ++ [.postExec (v.2.map (fun t => t.testKey)),
        .log "error" ("Failed to create test execution: " ++ env.postExecErr)],
       .error env.postExecErr)

/-- Result logging (XrayClientReadOnly.logTestResults): a lookup and a log
line per test, between two banner lines. -/
def logLoop (env : Env) : List XrayTestResult → List Act
  | [] => []
  | t :: rest =>
    let f := findTestCase env t.testKey
    let line :=
      match f.2 with
      | some _ => Act.log "info" (t.testKey ++ ": " ++ t.status)
      | none => Act.log "warn" (t.testKey ++ ": " ++ t.status ++ " - Test case not found")
    f.1 ++ [line] ++ logLoop env rest

/-- Banner-wrapped result logging (XrayClientReadOnly.logTestResults). -/
def logTestResults (env : Env) (testResults : List XrayTestResult) : List Act :=
  [.log "info" "=== Test Execution Summary ===",
   .log "info" ("Total Tests: " ++ toString testResults.length)]
  ++ logLoop env testResults
  ++ [.log "info" "=== End Test Execution Summary ==="]

end XrayClientReadOnly

namespace XrayClientFull

/-- Lookup of an issue by key (XrayClientFull.findTestCase): a GET that
either yields the issue or, on an HTTP error, is caught, logged and turned
into null so that the case gets created. -/
def findTestCase (env : Env) (testKey : String) : List Act × Option String :=
  if env.findOk testKey then
    ([.log "info" ("Searching for test case: " ++ testKey),
      .getIssue testKey,
      .log "info" ("Found existing test case: " ++ testKey)], some testKey)
  else
    ([.log "info" ("Searching for test case: " ++ testKey),
      .getIssue testKey,
      .log "info" ("Test case " ++ testKey ++ " not found - will create it")], none)

/-- Creation of a test case (XrayClientFull.createTestCase): a POST of a
new Test issue; on failure the catch logs and rethrows.  The request body
beyond project key and summary (description, issue type, priority,
assignee) is not carried by the action. -/
def createTestCase (env : Env) (testKey testTitle : String) :
    List Act × Except String String :=
  if env.createIssueOk then
    ([.log "info" ("Creating test case: " ++ testKey),
      .postIssue (projectKeyOf testKey) testTitle,
      .log "info" ("Successfully created new test case: " ++ env.createdKey testKey)],
     .ok (env.createdKey testKey))
  else
    ([.log "info" ("Creating test case: " ++ testKey),
      .postIssue (projectKeyOf testKey) testTitle,
      .log "error" ("Failed to create test case " ++ testKey ++ ": " ++ env.createErr)],
     .error env.createErr)

/-- Find-or-create (XrayClientFull.ensureTestCaseExists): return the found
key, or create the case; a creation failure propagates as a thrown error. -/
def ensureTestCaseExists (env : Env) (testKey testTitle : String) :
    List Act × Except String String :=
  let f := findTestCase env testKey
  match f.2 with
  | some k => (f.1, .ok k)
  | none =>
    let c := createTestCase env testKey testTitle
    (f.1 ++ [.log "info" ("Creating test case " ++ testKey ++ " in Xray Test Repository")] ++ c.1,
     c.2)

/-- Loop at the top of XrayClientFull.createTestExecution: ensure each
listed test case exists, collecting the tests; the first thrown error
aborts the loop and propagates. -/
def ensureLoop (env : Env) : List XrayTestResult → List Act × Except String (List XrayTestResult)
  | [] => ([], .ok [])
  | t :: rest =>
    let testTitle := jsOr (t.comment.map firstLine) ("Test " ++ t.testKey)
    let e := ensureTestCaseExists env t.testKey testTitle
    match e.2 with
    | .error m => (e.1, .error m)
    | .ok _ =>
      let r := ensureLoop env rest
      match r.2 with
      | .error m => (e.1 ++ r.1, .error m)
      | .ok l => (e.1 ++ r.1, .ok (t :: l))

/-- Creation of a test execution with automatic test-case creation
(XrayClientFull.createTestExecution): ensure every listed test case
exists, throw when the collected list is empty, otherwise POST the
execution; every thrown error is logged by the catch and rethrown. -/
def createTestExecution (env : Env) (tests : List XrayTestResult) :
    List Act × Except String String :=
  match ensureLoop env tests with
  | (tr, .error m) =>
    (tr ++ [.log "error" ("Failed to create test execution: " ++ m)], .error m)
  | (tr, .ok existing) =>
    if existing.isEmpty then
      (tr ++ [.log "error" "Failed to create test execution: Error: No test cases could be created or found in Xray Test Repository"],
       .error "No test cases could be created or found in Xray Test Repository")
    else
      if env.postExecOk then
        (tr ++ [.postExec (existing.map (fun t => t.testKey)),
          .log "info" ("Created test execution: " ++ env.execKey)], .ok env.execKey)
      else
        (tr ++ [.postExec (existing.map (fun t => t.testKey)),
          .log "error" ("Failed to create test execution: " ++ env.postExecErr)],
         .error env.postExecErr)

/-- Comment posting of the full client
(XrayClientFull.addTestExecutionComment): POST the comment directly; the
catch logs and swallows the failure (the method returns void). -/
def addTestExecutionComment (env : Env) (testKey : String) : List Act × Unit :=
  if env.commentOk testKey then
    ([.postComment testKey,
      .log "info" ("Added execution comment to test case " ++ testKey)], ())
  else
    ([.postComment testKey,
      .log "error" ("Failed to add comment to test case " ++ testKey)], ())

end XrayClientFull

/-- Mutable instance state of XrayClientHybrid: the one boolean field
canCreateIssues, initialised to true by the field initialiser. -/
structure HybridState where
  canCreateIssues : Bool
deriving DecidableEq

namespace XrayClientHybrid

/-- Initial state of a fresh XrayClientHybrid instance. -/
def initialState : HybridState := { canCreateIssues := true }

/-- Lookup of an issue by key (XrayClientHybrid.findTestCase): a GET that
either yields the issue or, on an HTTP error, is caught, logged and turned
into null so that creation can be attempted. -/
def findTestCase (env : Env) (testKey : String) : List Act × Option String :=
  if env.findOk testKey then
    ([.log "info" ("Searching for test case: " ++ testKey),
      .getIssue testKey,
      .log "info" ("Found existing test case: " ++ testKey)], some testKey)
  else
    ([.log "info" ("Searching for test case: " ++ testKey),
      .getIssue testKey,
      .log "info" ("Test case " ++ testKey ++ " not found - will attempt to create it")], none)

/-- Best-effort test-case creation (XrayClientHybrid.tryCreateTestCase):
skipped without a request once canCreateIssues is false; on a failed POST
the catch logs, flips canCreateIssues to false and returns null.  The
request body beyond project key and summary is not carried by the
action. -/
def tryCreateTestCase (st : HybridState) (env : Env) (testKey testTitle : String) :
    HybridState × List Act × Option String :=
  if st.canCreateIssues = false then
    (st, [.log "info" ("Skipping test case creation for " ++ testKey ++ " - creation disabled")], none)
  else
    if env.createIssueOk then
      (st, [.log "info" ("Attempting to create test case: " ++ testKey),
        .postIssue (projectKeyOf testKey) testTitle,
        .log "info" ("Successfully created new test case: " ++ env.createdKey testKey)],
       some (env.createdKey testKey))
    else
      ({ canCreateIssues := false },
       [.log "info" ("Attempting to create test case: " ++ testKey),
        .postIssue (projectKeyOf testKey) testTitle,
        .log "warn" ("Failed to create test case " ++ testKey ++ ": " ++ env.createErr),
        .log "info" "Disabling test case creation for future attempts"],
       none)

/-- Find-or-try-create (XrayClientHybrid.ensureTestCaseExists): return the
found key, or attempt creation; a creation failure degrades to null with a
warning. -/
def ensureTestCaseExists (st : HybridState) (env : Env) (testKey testTitle : String) :
    HybridState × List Act × Option String :=
  let f := findTestCase env testKey
  match f.2 with
  | some k => (st, f.1, some k)
  | none =>
    let c := tryCreateTestCase st env testKey testTitle
    match c.2.2 with
    | some k => (c.1, f.1 ++ c.2.1, some k)
    | none =>
      (c.1, f.1 ++ c.2.1 ++ [.log "warn" ("Test case " ++ testKey ++ " not found and could not be created")],
       none)

/-- Status update of an existing test case
(XrayClientHybrid.updateTestCaseStatus): look the case up, return false
with a warning when absent, otherwise PUT the mapped Jira status; a failed
PUT is caught, logged and turned into false. -/
def updateTestCaseStatus (env : Env) (testKey status : String) : List Act × Bool :=
  let f := findTestCase env testKey
  match f.2 with
  | none => (f.1 ++ [.log "warn" ("Cannot update status - test case not found: " ++ testKey)], false)
  | some _ =>
    let jiraStatus := mapXrayStatusToJira status
    if env.putOk testKey then
      (f.1 ++ [.putIssue testKey jiraStatus,
        .log "info" ("Updated test case " ++ testKey ++ " status to " ++ status)], true)
    else
      (f.1 ++ [.putIssue testKey jiraStatus,
        .log "error" ("Failed to update test case " ++ testKey ++ " status")], false)

/-- Loop of XrayClientHybrid.updateAllTestCaseStatuses, returning the trace
and the success count. -/
def updateLoop (env : Env) : List XrayTestResult → List Act × Nat
  | [] => ([], 0)
  | t :: rest =>
    let u := updateTestCaseStatus env t.testKey t.status
    let r := updateLoop env rest
    (u.1 ++ r.1, (if u.2 then 1 else 0) + r.2)

/-- Bulk status update (XrayClientHybrid.updateAllTestCaseStatuses). -/
def updateAllTestCaseStatuses (env : Env) (testResults : List XrayTestResult) : List Act :=
  let r := updateLoop env testResults
  r.1 ++ [.log "info" ("Updated statuses for " ++ toString r.2 ++ "/" ++ toString testResults.length ++ " test cases")]

/-- Comment posting of the hybrid client
(XrayClientHybrid.addTestExecutionComment): look the case up first, return
false with a warning when absent, otherwise POST the comment; a failed
POST is caught, logged and turned into false. -/
def addTestExecutionComment (env : Env) (testKey : String) : List Act × Bool :=
  let f := findTestCase env testKey
  match f.2 with
  | none => (f.1 ++ [.log "warn" ("Cannot add comment - test case not found: " ++ testKey)], false)
  | some _ =>
    if env.commentOk testKey then
      (f.1 ++ [.postComment testKey,
        .log "info" ("Added execution comment to test case " ++ testKey)], true)
    else
      (f.1 ++ [.postComment testKey,
        .log "error" ("Failed to add comment to test case " ++ testKey)], false)

/-- Verification loop at the top of
XrayClientHybrid.createTestExecution: look every test up and keep the ones
whose test case exists, logging a warning for the rest. -/
def verifyLoop (env : Env) : List XrayTestResult → List Act × List XrayTestResult
  | [] => ([], [])
  | t :: rest =>
    let f := findTestCase env t.testKey
    let step : List Act × List XrayTestResult :=
      match f.2 with
      | some _ => ([], [t])
      | none => ([.log "warn" ("Test case " ++ t.testKey ++ " not found - skipping from execution")], [])
    let r := verifyLoop env rest
    (f.1 ++ step.1 ++ r.1, step.2 ++ r.2)

/-- Creation of a test execution with only existing test cases
(XrayClientHybrid.createTestExecution): verify the listed test cases,
return null with a warning when none exists, otherwise POST the execution
with only the existing tests; a failed POST is caught, logged and turned
into null. -/
def createTestExecution (env : Env) (tests : List XrayTestResult) :
    List Act × Option String :=
  let v := verifyLoop env tests
  if v.2.isEmpty then
    (v.1 ++ [.log "warn" "No existing test cases found for execution"], none)
  else
    if env.postExecOk then
      (v.1 ++ [.postExec (v.2.map (fun t => t.testKey)),
        .log "info" ("Created test execution: " ++ env.execKey)], some env.execKey)
    else
      (v.1 ++ [.postExec (v.2.map (fun t => t.testKey)),
        .log "error" ("Failed to create test execution: " ++ env.postExecErr)],
       none)

end XrayClientHybrid

/-- Method calls available on an XrayClientHybrid instance, each carrying
the oracle for the requests it may issue; used to quantify over arbitrary
call sequences on one instance. -/
inductive HOp where
  | find (env : Env) (k : String)
  | tryCreate (env : Env) (k title : String)
  | ensure (env : Env) (k title : String)
  | updateStatus (env : Env) (k s : String)
  | updateAll (env : Env) (tests : List XrayTestResult)
  | addComment (env : Env) (k : String)
  | createExec (env : Env) (tests : List XrayTestResult)

/-- One method call on the hybrid client instance: the state is threaded
through tryCreateTestCase and ensureTestCaseExists (the only methods that
read or write canCreateIssues) and left untouched by the rest. -/
def runHOp (st : HybridState) : HOp → HybridState × List Act
  | .find env k => (st, (XrayClientHybrid.findTestCase env k).1)
  | .tryCreate env k title =>
    let r := XrayClientHybrid.tryCreateTestCase st env k title
    (r.1, r.2.1)
  | .ensure env k title =>
    let r := XrayClientHybrid.ensureTestCaseExists st env k title
    (r.1, r.2.1)
  | .updateStatus env k s => (st, (XrayClientHybrid.updateTestCaseStatus env k s).1)
  | .updateAll env tests => (st, XrayClientHybrid.updateAllTestCaseStatuses env tests)
  | .addComment env k => (st, (XrayClientHybrid.addTestExecutionComment env k).1)
  | .createExec env tests => (st, (XrayClientHybrid.createTestExecution env tests).1)

/-- Sequential execution of method calls on one hybrid client instance,
returning the final state. -/
def runHOps (st : HybridState) : List HOp → HybridState
  | [] => st
  | op :: rest => runHOps (runHOp st op).1 rest

/-- JS String.prototype.replace with a whitespace-run pattern and a dash
replacement; whitespace is modelled as the space character, which is the
only one occurring in test titles. -/
def collapseWs : List Char → List Char
  | [] => []
  | c :: rest =>
    if c = ' ' then '-' :: collapseWs (rest.dropWhile (fun d => d = ' '))
    else c :: collapseWs rest
termination_by l => l.length
decreasing_by
  all_goals simp_wf
  all_goals exact Nat.lt_succ_of_le (List.dropWhile_sublist _).length_le


/-- Greedy match of the test-key pattern (one or more uppercase letters, a
dash, one or more digits) at the head of a character list, returning the
captured key and the remainder.  This is the shared semantics of the
anchored regular expressions in extractTestKey: both character classes are
greedy, and backtracking cannot help because a shorter letter run ends in
a letter (never the dash) and a shorter digit run ends in a digit. -/
def keyMatchAt (cs : List Char) : Option (List Char × List Char) :=
  let letters := cs.takeWhile Char.isUpper
  let rest₁ := cs.dropWhile Char.isUpper
  if letters.isEmpty then none
  else
    match rest₁ with
    | [] => none
    | x :: rest₂ =>
      if x = '-' then
        let digits := rest₂.takeWhile Char.isDigit
        let rest₃ := rest₂.dropWhile Char.isDigit
        if digits.isEmpty then none
        else some (letters ++ '-' :: digits, rest₃)
      else none

/-- Title branch of extractTestKey: the anchored regular expression also
requires a colon right after the key. -/
def titleKeyOf (title : String) : Option String :=
  match keyMatchAt title.toList with
  | some (key, c :: _) => if c = ':' then some (String.mk key) else none
  | _ => none

/-- File branch of extractTestKey: the anchored regular expression with no
trailing requirement. -/
def fileKeyOf (name : String) : Option String :=
  match keyMatchAt name.toList with
  | some (key, _) => some (String.mk key)
  | none => none

/-- POSIX basename as used through path.basename: strip trailing
separators, then keep the part after the last separator. -/
def basename (p : String) : String :=
  let cs := (p.toList.reverse.dropWhile (fun c => c = '/')).reverse
  String.mk (cs.reverse.takeWhile (fun c => c ≠ '/')).reverse

/-- Message of the TypeError raised when an Xray client constructor calls
this.config.getJiraApiUrlV2(): the XrayConfigManager the clients import
(src/src/config/xray-config.ts) defines only getJiraApiUrl and
getXrayApiUrl, so every XrayClient getInstance() throws before issuing any
request (the method exists only in the stale compiled copy under
scripts/config/xray-config.js, which the import does not resolve to). -/
def missingUrlV2Error : String :=
  "TypeError: this.config.getJiraApiUrlV2 is not a function"

namespace XrayReporter

/-- Key extraction of the basic reporter (XrayReporter.extractTestKey):
match the key pattern followed by a colon at the start of the title, then
the key pattern at the start of the base name of the test file, else
null. -/
def extractTestKey (test : TestInfo) : Option String :=
  match titleKeyOf test.title with
  | some k => some k
  | none => fileKeyOf (basename (test.locationFile.getD ""))

/-- Comment text built by XrayReporter.generateTestComment; an undefined
duration is interpolated as the string undefined by the template
literal. -/
def generateTestComment (test : TestInfo) (result : PwResult) : String :=
  let durStr := match result.duration with
    | some n => toString n
    | none => "undefined"
  "Test: " ++ test.title ++ "\n"
  ++ "Status: " ++ result.status ++ "\n"
  ++ "Duration: " ++ durStr ++ "ms\n"
  ++ (match result.errorMessage with
      | some m => "Error: " ++ m ++ "\n"
      | none => "")
  ++ (match result.attachments with
      | some l => "Attachments: " ++ toString l.length ++ " file(s)\n"
      | none => "")

/-- Evidence list built by XrayReporter.generateEvidence: the paths of the
attachments that have one, plus a failure screenshot when the test failed
with an error and the file exists. -/
def generateEvidence (env : Env) (test : TestInfo) (result : PwResult) : List (Option String) :=
  let fromAttachments : List (Option String) :=
    match result.attachments with
    | some l => (l.filterMap (fun a => a.path)).map some
    | none => []
  let screenshotPath :=
    "test-results/failure-" ++ String.mk (collapseWs test.title.toList)
      ++ "-" ++ toString env.nowMs ++ ".png"
  if result.status = "failed" && result.errorMessage.isSome && env.fileExists screenshotPath then
    fromAttachments ++ [some screenshotPath]
  else
    fromAttachments

/-- Run-start callback of the basic reporter (XrayReporter.onBegin): a log
line and a reset of startTime. -/
def onBegin (st : ReporterState) (now : Nat) : ReporterState × List Act :=
  ({ st with startTime := now },
   [.log "info" "Xray Reporter: Test execution started"])

/-- Per-test-start callback of the basic reporter
(XrayReporter.onTestBegin): record an EXECUTING entry when the test has a
key, and do nothing otherwise. -/
def onTestBegin (st : ReporterState) (test : TestInfo) : ReporterState × List Act :=
  match extractTestKey test with
  | some testKey =>
    let entry : XrayTestResult :=
      { testKey := testKey, status := "EXECUTING",
        comment := some ("Test started: " ++ test.title),
        executionTime := some 0, evidence := none }
    ({ st with testResults := mapSet st.testResults test.id entry }, [])
  | none => (st, [])

/-- Per-test-end callback of the basic reporter (XrayReporter.onTestEnd):
record the mapped result when the test has a key, and do nothing
otherwise. -/
def onTestEnd (env : Env) (st : ReporterState) (test : TestInfo) (result : PwResult) :
    ReporterState × List Act :=
  match extractTestKey test with
  | some testKey =>
    let status := mapTestStatus result.status
    let xrayResult : XrayTestResult :=
      { testKey := testKey, status := status,
        comment := some (generateTestComment test result),
        executionTime := some (jsOrZero result.duration),
        evidence := some (generateEvidence env test result) }
    ({ st with testResults := mapSet st.testResults test.id xrayResult },
     [.log "info" ("Test " ++ testKey ++ " completed with status: " ++ status)])
  | none => (st, [])

/-- Run-end reporting of the basic reporter (XrayReporter.reportToXray):
after the empty-results check, the first statement of the try block is
XrayClientReadOnly.getInstance(); the client constructor calls
this.config.getJiraApiUrlV2(), which the imported XrayConfigManager does
not define, so a TypeError is thrown before any HTTP request.  The catch
logs it and rethrows.  Everything after that first statement —
logTestResults, createTestExecution, the updateTestExecutionStatus call
(itself missing from XrayClientReadOnly), the success log and the output
file write — is unreachable, so the oracle and the reporter options are
never consulted. -/
def reportToXray (env : Env) (st : ReporterState) : List Act × Except String Unit :=
  let _ := env
  let results := st.testResults.map (fun e => e.2)
  if results.isEmpty then
    ([.log "warn" "No test results to report to Xray"], .ok ())
  else
    ([.log "error" ("Failed to report test results to Xray: " ++ missingUrlV2Error)],
     .error missingUrlV2Error)

/-- Run-end callback of the basic reporter (XrayReporter.onEnd): report
when the configuration validates, log a warning otherwise; an error thrown
by reportToXray is caught and logged. -/
def onEnd (env : Env) (cfg : XrayConfig) (st : ReporterState) : List Act :=
  [.log "info" "Xray Reporter: Test execution completed"]
  ++ (if validateConfig cfg then
      let r := reportToXray env st
      match r.2 with
      | .ok _ => r.1
      | .error e => r.1 ++ [.log "error" ("Failed to report to Xray: " ++ e)]
    else
      [.log "warn" "Xray configuration is incomplete. Skipping Xray reporting."])

end XrayReporter

namespace XrayReporterHybrid

/-- Key extraction of the hybrid reporter
(XrayReporterHybrid.extractTestKey), identical in the source to the basic
reporter's. -/
def extractTestKey (test : TestInfo) : Option String :=
  match titleKeyOf test.title with
  | some k => some k
  | none => fileKeyOf (basename (test.locationFile.getD ""))

/-- Comment text built by XrayReporterHybrid.generateTestComment; here the
duration falls back to 0 and there is no attachments line. -/
def generateTestComment (test : TestInfo) (result : PwResult) : String :=
  "Test: " ++ test.title ++ "\n"
  ++ "Status: " ++ result.status ++ "\n"
  ++ "Duration: " ++ toString (jsOrZero result.duration) ++ "ms\n"
  ++ (match result.errorMessage with
      | some m => "Error: " ++ m ++ "\n"
      | none => "")

/-- Evidence list built by XrayReporterHybrid.generateEvidence: every
attachment path is pushed, present or not. -/
def generateEvidence (result : PwResult) : List (Option String) :=
  match result.attachments with
  | some l => l.map (fun a => a.path)
  | none => []

/-- Run-start callback of the hybrid reporter
(XrayReporterHybrid.onBegin). -/
def onBegin (st : ReporterState) (now : Nat) : ReporterState × List Act :=
  ({ st with startTime := now },
   [.log "info" "Xray Reporter (Hybrid): Test execution started"])

/-- Per-test-start callback of the hybrid reporter
(XrayReporterHybrid.onTestBegin): record an EXECUTING entry when the test
has a key, and do nothing otherwise. -/
def onTestBegin (st : ReporterState) (test : TestInfo) : ReporterState × List Act :=
  match extractTestKey test with
  | some testKey =>
    let entry : XrayTestResult :=
      { testKey := testKey, status := "EXECUTING",
        comment := some ("Test started: " ++ test.title),
        executionTime := some 0, evidence := none }
    ({ st with testResults := mapSet st.testResults test.id entry }, [])
  | none => (st, [])

/-- Per-test-end callback of the hybrid reporter
(XrayReporterHybrid.onTestEnd): record the mapped result when the test has
a key, and do nothing otherwise. -/
def onTestEnd (st : ReporterState) (test : TestInfo) (result : PwResult) :
    ReporterState × List Act :=
  match extractTestKey test with
  | some testKey =>
    let status := mapTestStatus result.status
    let xrayResult : XrayTestResult :=
      { testKey := testKey, status := status,
        comment := some (generateTestComment test result),
        executionTime := some (jsOrZero result.duration),
        evidence := some (generateEvidence result) }
    ({ st with testResults := mapSet st.testResults test.id xrayResult },
     [.log "info" ("Test " ++ testKey ++ " completed with status: " ++ status)])
  | none => (st, [])

/-- Run-end reporting of the hybrid reporter
(XrayReporterHybrid.reportToXray): after the empty-results check, the
first statement of the try block is XrayClientHybrid.getInstance(); the
client constructor calls this.config.getJiraApiUrlV2(), which the imported
XrayConfigManager does not define, so a TypeError is thrown before any
HTTP request.  The catch logs it and rethrows.  Steps 1 to 4 of the method
body — the status updates, the comment loop, the execution creation and
the summary/file output — are unreachable, so the oracle and the reporter
options are never consulted. -/
def reportToXray (env : Env) (st : ReporterState) : List Act × Except String Unit :=
  let _ := env
  let results := st.testResults.map (fun e => e.2)
  if results.isEmpty then
    ([.log "warn" "No test results to report to Xray"], .ok ())
  else
    ([.log "error" ("Failed to report test results to Xray: " ++ missingUrlV2Error)],
     .error missingUrlV2Error)

/-- Run-end callback of the hybrid reporter (XrayReporterHybrid.onEnd):
report when the configuration validates, log a warning otherwise; an error
thrown by reportToXray is caught and logged. -/
def onEnd (env : Env) (cfg : XrayConfig) (st : ReporterState) : List Act :=
  [.log "info" "Xray Reporter (Hybrid): Test execution completed"]
  ++ (if validateConfig cfg then
      let r := reportToXray env st
      match r.2 with
      | .ok _ => r.1
      | .error e => r.1 ++ [.log "error" ("Failed to report to Xray: " ++ e)]
    else
      [.log "warn" "Xray configuration is incomplete. Skipping Xray reporting."])

end XrayReporterHybrid

/-- Browser-visible page facts that GoogleHomePage.verifyPageLoaded
consults: the two locator visibilities and the document title. -/
structure PageState where
  logoVisible : Bool
  searchInputVisible : Bool
  title : String
deriving DecidableEq

/-- Visibility assertion of the base page object
(BasePage.assertElementVisible): expect(locator).toBeVisible throws an
assertion error when the element is not visible. -/
def assertElementVisible (visible : Bool) (message : String) : Except String Unit :=
  if visible then .ok () else .error message

/-- Lowercased character list of a string, the ASCII fragment of
String.prototype.toLowerCase as applied to page titles. -/
def lowerChars (s : String) : List Char :=
  s.toList.map Char.toLower

/-- JS title.toLowerCase().includes(g): substring containment on the
lowercased title. -/
def titleIncludesGoogle (title : String) : Bool :=
  decide ("google".toList <:+: lowerChars title)

namespace GoogleHomePage

/-- Page-load verification (GoogleHomePage.verifyPageLoaded): assert the
logo and the search input visible, then throw when the lowercased title
does not contain google. -/
def verifyPageLoaded (p : PageState) : Except String Unit :=
  match assertElementVisible p.logoVisible "Google logo should be visible" with
  | .error e => .error e
  | .ok _ =>
    match assertElementVisible p.searchInputVisible "Search input should be visible" with
    | .error e => .error e
    | .ok _ =>
      if titleIncludesGoogle p.title then .ok ()
      else .error ("Expected page title to contain Google, but got: " ++ p.title)

end GoogleHomePage

/-- Oracle with every request succeeding, used for concrete runs. -/
def envAllOk : Env :=
  { findOk := fun _ => true, createIssueOk := true, createdKey := fun k => k,
    createErr := "create failed", putOk := fun _ => true, commentOk := fun _ => true,
    postExecOk := true, postExecErr := "post failed", execKey := "XSP-100",
    fileExists := fun _ => false, nowMs := 0 }

/-- Oracle on which every issue lookup fails, used for concrete runs. -/
def envNoFind : Env :=
  { envAllOk with findOk := fun _ => false }

/-- Oracle on which issue creation fails, used for concrete runs. -/
def envNoCreate : Env :=
  { envAllOk with createIssueOk := false }

/-- Oracle on which both issue lookup and issue creation fail. -/
def envNothing : Env :=
  { envAllOk with findOk := fun _ => false, createIssueOk := false }

/-- Oracle on which comment posting fails, used for concrete runs. -/
def envNoComment : Env :=
  { envAllOk with commentOk := fun _ => false }

/-- Oracle on which the execution POST fails, used for concrete runs. -/
def envNoPostExec : Env :=
  { envAllOk with postExecOk := false }

/-- Concrete collected result used for concrete runs. -/
def sampleResult : XrayTestResult :=
  { testKey := "XSP-1", status := "PASSED", comment := some "ok",
    executionTime := some 5, evidence := none }

/-- Concrete reporter state holding one collected result. -/
def sampleState : ReporterState := { testResults := [("t1", sampleResult)], startTime := 0 }

/-- Concrete complete configuration. -/
def cfgOk : XrayConfig :=
  { jiraBaseUrl := "https://x.example", jiraUsername := "u", jiraApiToken := "t",
    projectKey := "XSP" }

/-- Concrete incomplete configuration (missing API token). -/
def cfgIncomplete : XrayConfig :=
  { jiraBaseUrl := "https://x.example", jiraUsername := "u", jiraApiToken := "",
    projectKey := "XSP" }

/-- C6: the full and hybrid clients agree on the Xray-to-Jira status
translation, with PASSED mapping to Done, FAILED and EXECUTING to
In Progress, and SKIPPED, TODO and every other string to To Do. -/
theorem mapXrayStatusToJira_variants_agree :
  (∀ s, XrayClientFull.mapXrayStatusToJira s = XrayClientHybrid.mapXrayStatusToJira s)
  ∧ XrayClientFull.mapXrayStatusToJira "PASSED" = "Done"
  ∧ XrayClientFull.mapXrayStatusToJira "FAILED" = "In Progress"
  ∧ XrayClientFull.mapXrayStatusToJira "EXECUTING" = "In Progress"
  ∧ XrayClientFull.mapXrayStatusToJira "SKIPPED" = "To Do"
  ∧ XrayClientFull.mapXrayStatusToJira "TODO" = "To Do"
  ∧ (∀ s, s ≠ "PASSED" → s ≠ "FAILED" → s ≠ "EXECUTING" → s ≠ "SKIPPED" → s ≠ "TODO" →
      XrayClientFull.mapXrayStatusToJira s = "To Do") := by
  refine ⟨fun s => rfl, by decide, by decide, by decide, by decide, by decide, ?_⟩
  intro s h₁ h₂ h₃ h₄ h₅
  unfold XrayClientFull.mapXrayStatusToJira
  split_ifs <;> simp_all

/-- Witness for C6: the default arm at a status string outside the five
named cases. -/
theorem mapXrayStatusToJira_variants_agree_witness :
  XrayClientFull.mapXrayStatusToJira "BLOCKED" = "To Do" :=
  mapXrayStatusToJira_variants_agree.2.2.2.2.2.2 "BLOCKED"
    (by decide) (by decide) (by decide) (by decide) (by decide)

/-- C10: the basic and hybrid reporters agree on the Playwright-to-Xray
status mapping; it sends passed to PASSED, skipped to SKIPPED and every
other status (timedOut, interrupted, unknown values) to FAILED, and its
range is included in the three statuses PASSED, FAILED, SKIPPED. -/
theorem mapTestStatus_total_and_agree :
  (∀ s, XrayReporter.mapTestStatus s = XrayReporterHybrid.mapTestStatus s)
  ∧ XrayReporter.mapTestStatus "passed" = "PASSED"
  ∧ XrayReporter.mapTestStatus "skipped" = "SKIPPED"
  ∧ XrayReporter.mapTestStatus "timedOut" = "FAILED"
  ∧ XrayReporter.mapTestStatus "interrupted" = "FAILED"
  ∧ (∀ s, s ≠ "passed" → s ≠ "skipped" → XrayReporter.mapTestStatus s = "FAILED")
  ∧ (∀ s, XrayReporter.mapTestStatus s = "PASSED" ∨ XrayReporter.mapTestStatus s = "FAILED"
      ∨ XrayReporter.mapTestStatus s = "SKIPPED") := by
  refine ⟨fun s => rfl, by decide, by decide, by decide, by decide, ?_, ?_⟩
  · intro s h₁ h₂
    unfold XrayReporter.mapTestStatus
    split_ifs <;> simp_all
  · intro s
    unfold XrayReporter.mapTestStatus
    split_ifs <;> simp

/-- Witness for C10: the default arm at an unknown status string. -/
theorem mapTestStatus_total_and_agree_witness :
  XrayReporter.mapTestStatus "someUnknownStatus" = "FAILED" :=
  mapTestStatus_total_and_agree.2.2.2.2.2.1 "someUnknownStatus" (by decide) (by decide)

/-- C9: canCreateIssues is a one-way latch on the hybrid client: it starts
true, a failed creation request flips it to false, no method call ever
sets it back to true (also across arbitrary call sequences), and once
false every tryCreateTestCase call returns null while issuing no
issue-creation request. -/
theorem canCreateIssues_one_way_latch :
  XrayClientHybrid.initialState.canCreateIssues = true
  ∧ (∀ st env k title, st.canCreateIssues = true → env.createIssueOk = false →
      (XrayClientHybrid.tryCreateTestCase st env k title).1.canCreateIssues = false)
  ∧ (∀ st op, st.canCreateIssues = false → (runHOp st op).1.canCreateIssues = false)
  ∧ (∀ st ops, st.canCreateIssues = false → (runHOps st ops).canCreateIssues = false)
  ∧ (∀ st env k title, st.canCreateIssues = false →
      (XrayClientHybrid.tryCreateTestCase st env k title).2.2 = none
      ∧ ∀ a ∈ (XrayClientHybrid.tryCreateTestCase st env k title).2.1,
          isCreateIssueReq a = false) := by
  have hdrop : ∀ st env k title, st.canCreateIssues = false →
      (XrayClientHybrid.tryCreateTestCase st env k title).1.canCreateIssues = false := by
    intro st env k title h
    simp [XrayClientHybrid.tryCreateTestCase, h]
  have hop : ∀ st op, st.canCreateIssues = false →
      (runHOp st op).1.canCreateIssues = false := by
    intro st op h
    cases op with
    | tryCreate env k title => exact hdrop st env k title h
    | ensure env k title =>
      simp only [runHOp, XrayClientHybrid.ensureTestCaseExists]
      cases hf : (XrayClientHybrid.findTestCase env k).2 with
      | some v => simpa using h
      | none =>
        cases hc : (XrayClientHybrid.tryCreateTestCase st env k title).2.2 with
        | some v => simpa [hf, hc] using hdrop st env k title h
        | none => simpa [hf, hc] using hdrop st env k title h
    | find env k => simpa using h
    | updateStatus env k s => simpa using h
    | updateAll env tests => simpa using h
    | addComment env k => simpa using h
    | createExec env tests => simpa using h
  refine ⟨rfl, ?_, hop, ?_, ?_⟩
  · intro st env k title h₁ h₂
    simp [XrayClientHybrid.tryCreateTestCase, h₁, h₂]
  · intro st ops
    induction ops generalizing st with
    | nil => intro h; simpa [runHOps] using h
    | cons op rest ih =>
      intro h
      exact ih _ (hop st op h)
  · intro st env k title h
    refine ⟨by simp [XrayClientHybrid.tryCreateTestCase, h], ?_⟩
    intro a ha
    simp [XrayClientHybrid.tryCreateTestCase, h] at ha
    simp [ha, isCreateIssueReq]

/-- Witness for C9: a disabled instance stays disabled across a call
sequence that retries creation with an oracle that would now succeed, and
that retry returns null. -/
theorem canCreateIssues_one_way_latch_witness :
  (runHOps { canCreateIssues := false }
      [HOp.tryCreate envAllOk "XSP-9" "t", HOp.ensure envAllOk "XSP-9" "t"]).canCreateIssues = false
  ∧ (XrayClientHybrid.tryCreateTestCase { canCreateIssues := false } envAllOk "XSP-9" "t").2.2 = none :=
  ⟨canCreateIssues_one_way_latch.2.2.2.1 { canCreateIssues := false }
      [HOp.tryCreate envAllOk "XSP-9" "t", HOp.ensure envAllOk "XSP-9" "t"] rfl,
   (canCreateIssues_one_way_latch.2.2.2.2 { canCreateIssues := false } envAllOk "XSP-9" "t" rfl).1⟩

/-- C8: with the logo and search-input visibility assertions passing,
verifyPageLoaded throws exactly when the lowercased title does not contain
the substring google, and returns normally whenever the title contains
google in any letter case. -/
theorem verifyPageLoaded_title_check :
  (∀ p : PageState, p.logoVisible = true → p.searchInputVisible = true →
    ((∃ e, GoogleHomePage.verifyPageLoaded p = Except.error e) ↔
      titleIncludesGoogle p.title = false))
  ∧ (∀ p : PageState, p.logoVisible = true → p.searchInputVisible = true →
      ∀ pre mid post, p.title = pre ++ mid ++ post → lowerChars mid = "google".toList →
      GoogleHomePage.verifyPageLoaded p = Except.ok ()) := by
  have hmain : ∀ p : PageState, p.logoVisible = true → p.searchInputVisible = true →
      ((∃ e, GoogleHomePage.verifyPageLoaded p = Except.error e) ↔
        titleIncludesGoogle p.title = false) := by
    intro p hl hs
    simp only [GoogleHomePage.verifyPageLoaded, assertElementVisible, hl, hs, if_true]
    cases h : titleIncludesGoogle p.title <;> simp [h]
  refine ⟨hmain, ?_⟩
  intro p hl hs pre mid post htitle hmid
  have hinc : titleIncludesGoogle p.title = true := by
    have hsplit : lowerChars p.title = lowerChars pre ++ lowerChars mid ++ lowerChars post := by
      rw [htitle]
      simp [lowerChars]
    unfold titleIncludesGoogle
    rw [hsplit, hmid]
    exact decide_eq_true ⟨lowerChars pre, lowerChars post, rfl⟩
  simp only [GoogleHomePage.verifyPageLoaded, assertElementVisible, hl, hs, if_true, hinc]

/-- Witness for C8: a concrete loaded page with a mixed-case title passes
verification (through both conjuncts), and the first conjunct refutes a
mismatched title. -/
theorem verifyPageLoaded_title_check_witness :
  GoogleHomePage.verifyPageLoaded
      { logoVisible := true, searchInputVisible := true, title := "My GoOgLe Page" }
    = Except.ok ()
  ∧ (∃ e, GoogleHomePage.verifyPageLoaded
      { logoVisible := true, searchInputVisible := true, title := "Bing" } = Except.error e) :=
  ⟨verifyPageLoaded_title_check.2
      { logoVisible := true, searchInputVisible := true, title := "My GoOgLe Page" }
      rfl rfl "My " "GoOgLe" " Page" rfl (by decide),
   (verifyPageLoaded_title_check.1
      { logoVisible := true, searchInputVisible := true, title := "Bing" }
      rfl rfl).mpr (by decide)⟩

/-- Helper: the head of a dropWhile remainder fails the predicate. -/
theorem dropWhileHeadFalse (p : Char → Bool) :
    ∀ (l : List Char) (x : Char) (xs : List Char), l.dropWhile p = x :: xs → p x = false := by
  intro l
  induction l with
  | nil => intro x xs h; simp [List.dropWhile] at h
  | cons a t ih =>
    intro x xs h
    rw [List.dropWhile_cons] at h
    split at h
    · exact ih x xs h
    · cases h
      simp_all

/-- Helper: takeWhile and dropWhile on a run of satisfying elements closed
by a failing one. -/
theorem takeWhileOfAllStop (p : Char → Bool) :
    ∀ (L : List Char) (x : Char) (r : List Char), (∀ c ∈ L, p c = true) → p x = false →
      ((L ++ x :: r).takeWhile p = L ∧ (L ++ x :: r).dropWhile p = x :: r) := by
  intro L
  induction L with
  | nil =>
    intro x r _ hx
    simp [List.takeWhile_cons, List.dropWhile_cons, hx]
  | cons a t ih =>
    intro x r hall hx
    have ha : p a = true := hall a (by simp)
    have ht := ih x r (fun c hc => hall c (by simp [hc])) hx
    simp [List.takeWhile_cons, List.dropWhile_cons, ha, ht.1, ht.2]

/-- Helper: takeWhile and dropWhile on a list of satisfying elements. -/
theorem takeWhileOfAll (p : Char → Bool) :
    ∀ L : List Char, (∀ c ∈ L, p c = true) → (L.takeWhile p = L ∧ L.dropWhile p = []) := by
  intro L
  induction L with
  | nil => simp
  | cons a t ih =>
    intro hall
    have ha : p a = true := hall a (by simp)
    have ht := ih (fun c hc => hall c (by simp [hc]))
    simp [List.takeWhile_cons, List.dropWhile_cons, ha, ht.1, ht.2]

/-- Decomposition asserted by a successful key match: a nonempty uppercase
run, a dash, a nonempty digit run, and a remainder that does not start
with a digit (greediness of the digit class). -/
def KeyParts (key cs rest : List Char) : Prop :=
  ∃ L D, L ≠ [] ∧ D ≠ [] ∧ (∀ c ∈ L, Char.isUpper c = true) ∧ (∀ c ∈ D, Char.isDigit c = true) ∧
    key = L ++ '-' :: D ∧ cs = L ++ ('-' :: (D ++ rest)) ∧
    (∀ c, rest.head? = some c → Char.isDigit c = false)

/-- Helper: emptiness test of a list as inequality. -/
theorem isEmptyFalseIff (l : List Char) : l.isEmpty = false ↔ l ≠ [] := by
  cases l <;> simp

/-- Correctness of the greedy key matcher against the decomposition it is
meant to recognise. -/
theorem keyMatchAt_eq_iff (cs key rest : List Char) :
    keyMatchAt cs = some (key, rest) ↔ KeyParts key cs rest := by
  constructor
  · intro h
    unfold keyMatchAt at h
    by_cases hLe : (cs.takeWhile Char.isUpper).isEmpty
    · rw [if_pos hLe] at h
      exact absurd h (by simp)
    · rw [if_neg hLe] at h
      cases heq : cs.dropWhile Char.isUpper with
      | nil =>
        rw [heq] at h
        exact absurd h (by simp)
      | cons x rest₂ =>
        rw [heq] at h
        simp only [] at h
        by_cases hx : x = '-'
        · rw [if_pos hx] at h
          by_cases hDe : (rest₂.takeWhile Char.isDigit).isEmpty
          · rw [if_pos hDe] at h
            exact absurd h (by simp)
          · rw [if_neg hDe] at h
            have hkey : key = cs.takeWhile Char.isUpper ++ '-' :: rest₂.takeWhile Char.isDigit := by
              cases h
              rfl
            have hrest : rest = rest₂.dropWhile Char.isDigit := by
              cases h
              rfl
            subst hx
            refine ⟨cs.takeWhile Char.isUpper, rest₂.takeWhile Char.isDigit,
              (isEmptyFalseIff _).mp (Bool.eq_false_iff.mpr hLe),
              (isEmptyFalseIff _).mp (Bool.eq_false_iff.mpr hDe),
              ?_, ?_, hkey, ?_, ?_⟩
            · intro c hc
              exact List.mem_takeWhile_imp hc
            · intro c hc
              exact List.mem_takeWhile_imp hc
            · conv_lhs => rw [← List.takeWhile_append_dropWhile Char.isUpper cs]
              rw [heq, hrest]
              conv_lhs => rw [← List.takeWhile_append_dropWhile Char.isDigit rest₂]
            · intro c hc
              rw [hrest] at hc
              cases hr : rest₂.dropWhile Char.isDigit with
              | nil => simp [hr] at hc
              | cons y ys =>
                rw [hr] at hc
                have hyd : Char.isDigit y = false := dropWhileHeadFalse Char.isDigit rest₂ y ys hr
                simp only [List.head?, Option.some.injEq] at hc
                exact hc ▸ hyd
        · rw [if_neg hx] at h
          exact absurd h (by simp)
  · rintro ⟨L, D, hL, hD, hLU, hDD, hkey, hcs, hhead⟩
    have hupper := takeWhileOfAllStop Char.isUpper L '-' (D ++ rest) hLU (by decide)
    have hdigit : (D ++ rest).takeWhile Char.isDigit = D ∧ (D ++ rest).dropWhile Char.isDigit = rest := by
      cases rest with
      | nil =>
        have := takeWhileOfAll Char.isDigit D hDD
        simpa using this
      | cons c r =>
        exact takeWhileOfAllStop Char.isDigit D c r hDD (hhead c rfl)
    have hLe : L.isEmpty = false := (isEmptyFalseIff L).mpr hL
    have hDe : D.isEmpty = false := (isEmptyFalseIff D).mpr hD
    unfold keyMatchAt
    rw [hcs]
    simp [hupper.1, hupper.2, hLe, hDe, hdigit.1, hdigit.2, hkey]

/-- Shape of a test-case key: one or more uppercase letters, a dash, one or
more digits. -/
def KeyShape (k : String) : Prop :=
  ∃ L D, L ≠ [] ∧ D ≠ [] ∧ (∀ c ∈ L, Char.isUpper c = true) ∧ (∀ c ∈ D, Char.isDigit c = true) ∧
    k.toList = L ++ '-' :: D

/-- Specification-side reading of the title branch: the title begins with
the key immediately followed by a colon. -/
def TitleKeyAt (s k : String) : Prop :=
  KeyShape k ∧ ∃ rest, s.toList = k.toList ++ ':' :: rest

/-- Specification-side reading of the file branch: the name begins with
the key, read greedily (what follows the key cannot extend its digit
run). -/
def FileKeyAt (s k : String) : Prop :=
  KeyShape k ∧ ∃ rest, s.toList = k.toList ++ rest ∧
    ∀ c, rest.head? = some c → Char.isDigit c = false

/-- Characterisation of the title branch of extractTestKey. -/
theorem titleKeyOf_eq_iff (s k : String) : titleKeyOf s = some k ↔ TitleKeyAt s k := by
  constructor
  · intro h
    unfold titleKeyOf at h
    cases hm : keyMatchAt s.toList with
    | none =>
      rw [hm] at h
      exact absurd h (by simp)
    | some pr =>
      obtain ⟨key, rest⟩ := pr
      rw [hm] at h
      cases rest with
      | nil => exact absurd h (by simp)
      | cons c tail =>
        simp only [] at h
        by_cases hc : c = ':'
        · rw [if_pos hc] at h
          subst hc
          have hk : k = String.mk key := by
            cases h
            rfl
          obtain ⟨L, D, hL, hD, hLU, hDD, hkey, hcs, hhead⟩ := (keyMatchAt_eq_iff _ _ _).mp hm
          subst hk
          refine ⟨⟨L, D, hL, hD, hLU, hDD, by simpa using hkey⟩, tail, ?_⟩
          rw [hcs, hkey]
          simp
        · rw [if_neg hc] at h
          exact absurd h (by simp)
  · rintro ⟨⟨L, D, hL, hD, hLU, hDD, hk⟩, rest, hs⟩
    have hm : keyMatchAt s.toList = some (k.toList, ':' :: rest) := by
      refine (keyMatchAt_eq_iff _ _ _).mpr ⟨L, D, hL, hD, hLU, hDD, hk.symm ▸ rfl, ?_, ?_⟩
      · rw [hs, hk]
        simp
      · intro c hc
        cases hc
        decide
    unfold titleKeyOf
    rw [hm]
    simp

/-- Characterisation of the file branch of extractTestKey. -/
theorem fileKeyOf_eq_iff (s k : String) : fileKeyOf s = some k ↔ FileKeyAt s k := by
  constructor
  · intro h
    unfold fileKeyOf at h
    cases hm : keyMatchAt s.toList with
    | none =>
      rw [hm] at h
      exact absurd h (by simp)
    | some pr =>
      obtain ⟨key, rest⟩ := pr
      rw [hm] at h
      have hk : k = String.mk key := by
        cases h
        rfl
      obtain ⟨L, D, hL, hD, hLU, hDD, hkey, hcs, hhead⟩ := (keyMatchAt_eq_iff _ _ _).mp hm
      subst hk
      refine ⟨⟨L, D, hL, hD, hLU, hDD, by simpa using hkey⟩, rest, ?_, hhead⟩
      rw [hcs, hkey]
      simp
  · rintro ⟨⟨L, D, hL, hD, hLU, hDD, hk⟩, rest, hs, hhead⟩
    have hm : keyMatchAt s.toList = some (k.toList, rest) := by
      refine (keyMatchAt_eq_iff _ _ _).mpr ⟨L, D, hL, hD, hLU, hDD, hk.symm ▸ rfl, ?_, hhead⟩
      rw [hs, hk]
      simp
    unfold fileKeyOf
    rw [hm]
    rfl

/-- C5: extractTestKey returns exactly the key that starts the title when
the title starts with an uppercase-dash-digits key followed by a colon
(keys read greedily, as the anchored regular expression does); otherwise
exactly the key that starts the base name of the test file; otherwise
null.  The hybrid reporter's copy agrees, and a test whose key is null is
not recorded in the result map of the lifecycle callbacks the claim
cites. -/
theorem extractTestKey_characterization :
  (∀ t k, XrayReporter.extractTestKey t = some k ↔
    (TitleKeyAt t.title k ∨
      ((∀ j, ¬ TitleKeyAt t.title j) ∧ FileKeyAt (basename (t.locationFile.getD "")) k)))
  ∧ (∀ t, XrayReporterHybrid.extractTestKey t = XrayReporter.extractTestKey t)
  ∧ (∀ st t, XrayReporterHybrid.extractTestKey t = none →
      XrayReporterHybrid.onTestBegin st t = (st, []))
  ∧ (∀ st t res, XrayReporterHybrid.extractTestKey t = none →
      XrayReporterHybrid.onTestEnd st t res = (st, [])) := by
  refine ⟨?_, fun t => rfl, ?_, ?_⟩
  · intro t k
    constructor
    · intro h
      unfold XrayReporter.extractTestKey at h
      cases ht : titleKeyOf t.title with
      | some k₀ =>
        rw [ht] at h
        simp only [Option.some.injEq] at h
        subst h
        exact Or.inl ((titleKeyOf_eq_iff _ _).mp ht)
      | none =>
        rw [ht] at h
        refine Or.inr ⟨?_, (fileKeyOf_eq_iff _ _).mp h⟩
        intro j hj
        have hsome := (titleKeyOf_eq_iff t.title j).mpr hj
        rw [ht] at hsome
        exact absurd hsome (by simp)
    · intro h
      unfold XrayReporter.extractTestKey
      cases h with
      | inl h =>
        rw [(titleKeyOf_eq_iff _ _).mpr h]
      | inr h =>
        obtain ⟨hnone, hfile⟩ := h
        have ht : titleKeyOf t.title = none := by
          cases ht : titleKeyOf t.title with
          | none => rfl
          | some j => exact absurd ((titleKeyOf_eq_iff _ _).mp ht) (hnone j)
        rw [ht, (fileKeyOf_eq_iff _ _).mpr hfile]
  · intro st t h
    unfold XrayReporterHybrid.onTestBegin
    rw [h]
  · intro st t res h
    unfold XrayReporterHybrid.onTestEnd
    rw [h]

/-- Witness for C5: a keyed title is recognised through the
characterisation, and a keyless test leaves the result map untouched. -/
theorem extractTestKey_characterization_witness :
  XrayReporter.extractTestKey { id := "t1", title := "XSP-58: search works", locationFile := none }
    = some "XSP-58"
  ∧ XrayReporterHybrid.onTestBegin sampleState
      { id := "t9", title := "no key here", locationFile := none } = (sampleState, []) :=
  ⟨(extractTestKey_characterization.1
      { id := "t1", title := "XSP-58: search works", locationFile := none } "XSP-58").mpr
      (Or.inl ⟨⟨['X', 'S', 'P'], ['5', '8'], by decide, by decide, by decide, by decide, by decide⟩,
        " search works".toList, by decide⟩),
   extractTestKey_characterization.2.2.1 sampleState
      { id := "t9", title := "no key here", locationFile := none } rfl⟩

/-- C7: the basic reporter's onBegin, onTestBegin and onTestEnd touch only
the internal state (onBegin only startTime, the per-test callbacks only
the testResults map) and issue no HTTP request; onEnd with an incomplete
configuration produces only the two log lines and no HTTP request. -/
theorem reporter_lifecycle_frame :
  (∀ st now, (XrayReporter.onBegin st now).1.testResults = st.testResults
    ∧ ∀ a ∈ (XrayReporter.onBegin st now).2, isHttpAction a = false)
  ∧ (∀ st t, (XrayReporter.onTestBegin st t).1.startTime = st.startTime
    ∧ ∀ a ∈ (XrayReporter.onTestBegin st t).2, isHttpAction a = false)
  ∧ (∀ env st t res, (XrayReporter.onTestEnd env st t res).1.startTime = st.startTime
    ∧ ∀ a ∈ (XrayReporter.onTestEnd env st t res).2, isHttpAction a = false)
  ∧ (∀ env cfg st, validateConfig cfg = false →
      XrayReporter.onEnd env cfg st =
        [Act.log "info" "Xray Reporter: Test execution completed",
         Act.log "warn" "Xray configuration is incomplete. Skipping Xray reporting."]
      ∧ ∀ a ∈ XrayReporter.onEnd env cfg st, isHttpAction a = false) := by
  refine ⟨?_, ?_, ?_, ?_⟩
  · intro st now
    exact ⟨rfl, by simp [XrayReporter.onBegin, isHttpAction]⟩
  · intro st t
    unfold XrayReporter.onTestBegin
    cases h : XrayReporter.extractTestKey t <;> simp
  · intro env st t res
    unfold XrayReporter.onTestEnd
    cases h : XrayReporter.extractTestKey t <;> simp [isHttpAction]
  · intro env cfg st h
    unfold XrayReporter.onEnd
    rw [h]
    exact ⟨rfl, by simp [isHttpAction]⟩

/-- Witness for C7: the incomplete sample configuration makes onEnd skip
reporting, and the per-test callbacks issue no request on a sample
test. -/
theorem reporter_lifecycle_frame_witness :
  XrayReporter.onEnd envAllOk cfgIncomplete sampleState =
    [Act.log "info" "Xray Reporter: Test execution completed",
     Act.log "warn" "Xray configuration is incomplete. Skipping Xray reporting."]
  ∧ (XrayReporter.onTestBegin sampleState
      { id := "t1", title := "XSP-58: search works", locationFile := none }).1.startTime
      = sampleState.startTime :=
  ⟨(reporter_lifecycle_frame.2.2.2 envAllOk cfgIncomplete sampleState rfl).1,
   (reporter_lifecycle_frame.2.1 sampleState
      { id := "t1", title := "XSP-58: search works", locationFile := none }).1⟩

/-- Helper: when every listed test case is found, the ensure loop of the
full client succeeds with the full list and issues no execution-creation
request. -/
theorem ensureLoopAllFound (env : Env) :
    ∀ tests : List XrayTestResult, (∀ t ∈ tests, env.findOk t.testKey = true) →
      (XrayClientFull.ensureLoop env tests).2 = .ok tests
      ∧ ∀ a ∈ (XrayClientFull.ensureLoop env tests).1, isExecReq a = false := by
  intro tests
  induction tests with
  | nil => intro _; simp [XrayClientFull.ensureLoop]
  | cons t rest ih =>
    intro h
    have ht : env.findOk t.testKey = true := h t (by simp)
    have hr := ih (fun x hx => h x (by simp [hx]))
    constructor
    · simp [XrayClientFull.ensureLoop, XrayClientFull.ensureTestCaseExists,
        XrayClientFull.findTestCase, ht, hr.1]
    · intro a ha
      simp only [XrayClientFull.ensureLoop, XrayClientFull.ensureTestCaseExists,
        XrayClientFull.findTestCase, ht, if_true, hr.1] at ha
      simp only [List.mem_append, List.mem_cons, List.mem_singleton] at ha
      rcases ha with ((h₁ | h₁ | h₁ | h₁) | h₁)
      · rw [h₁]; rfl
      · rw [h₁]; rfl
      · rw [h₁]; rfl
      · simp at h₁
      · exact hr.2 a h₁

/-- Helper: the read-only verification loop keeps exactly the tests whose
lookup succeeds and issues no execution-creation request. -/
theorem verifyLoopFilterReadOnly (env : Env) :
    ∀ tests, (XrayClientReadOnly.verifyLoop env tests).2
        = tests.filter (fun t => env.findOk t.testKey)
      ∧ ∀ a ∈ (XrayClientReadOnly.verifyLoop env tests).1, isExecReq a = false := by
  intro tests
  induction tests with
  | nil => simp [XrayClientReadOnly.verifyLoop]
  | cons t rest ih =>
    cases hf : env.findOk t.testKey <;>
      constructor <;>
        simp_all [XrayClientReadOnly.verifyLoop, XrayClientReadOnly.findTestCase,
          hf, List.filter_cons, isExecReq]

/-- Helper: the hybrid verification loop keeps exactly the tests whose
lookup succeeds and issues no execution-creation request. -/
theorem verifyLoopFilterHybrid (env : Env) :
    ∀ tests, (XrayClientHybrid.verifyLoop env tests).2
        = tests.filter (fun t => env.findOk t.testKey)
      ∧ ∀ a ∈ (XrayClientHybrid.verifyLoop env tests).1, isExecReq a = false := by
  intro tests
  induction tests with
  | nil => simp [XrayClientHybrid.verifyLoop]
  | cons t rest ih =>
    cases hf : env.findOk t.testKey <;>
      constructor <;>
        simp_all [XrayClientHybrid.verifyLoop, XrayClientHybrid.findTestCase,
          hf, List.filter_cons, isExecReq]

/-- C3 counterexample: the handler in XrayClientHybrid.tryCreateTestCase
does more than log and return a fallback — at a concrete failing creation
request it also mutates the client instance, flipping canCreateIssues to
suppress future requests, so the claim that no handler performs any
recovery beyond log-and-continue or log-and-throw fails at this catch. -/
theorem tryCreate_handler_mutates_state :
  (XrayClientHybrid.tryCreateTestCase { canCreateIssues := true } envNoCreate "XSP-9" "t").1
    ≠ ({ canCreateIssues := true } : HybridState) := by
  decide

/-- C3 (amended): every failure handler in the modelled reporters and Xray
clients logs the error and then either continues with a fallback value
(null, false, void or a plain return) or rethrows the same error, issuing
no retry of the failed request and undoing nothing — except that the catch
of XrayClientHybrid.tryCreateTestCase additionally latches canCreateIssues
to false, disabling future creation requests.  Handlers covered, in
order: the hybrid comment post, the full client's execution creation, the
basic reporter's onEnd, the three lookup variants, the full client's test
case creation, the hybrid tryCreateTestCase catch (with its latch), the
hybrid status update, the full client's comment post, the read-only and
hybrid execution creations, and the hybrid reporter's reportToXray
catch. -/
theorem error_handlers_log_and_continue_or_throw :
  (∀ env k, env.findOk k = true → env.commentOk k = false →
    (XrayClientHybrid.addTestExecutionComment env k).2 = false
    ∧ (XrayClientHybrid.addTestExecutionComment env k).1.countP (fun a => isCommentReq a) = 1
    ∧ (XrayClientHybrid.addTestExecutionComment env k).1.getLast? =
        some (Act.log "error" ("Failed to add comment to test case " ++ k)))
  ∧ (∀ env tests, (∀ t ∈ tests, env.findOk t.testKey = true) → tests ≠ [] →
      env.postExecOk = false →
      (XrayClientFull.createTestExecution env tests).2 = .error env.postExecErr
      ∧ (XrayClientFull.createTestExecution env tests).1.countP (fun a => isExecReq a) = 1
      ∧ (XrayClientFull.createTestExecution env tests).1.getLast? =
          some (Act.log "error" ("Failed to create test execution: " ++ env.postExecErr)))
  ∧ (∀ env cfg st e, validateConfig cfg = true →
      (XrayReporter.reportToXray env st).2 = .error e →
      XrayReporter.onEnd env cfg st =
        [Act.log "info" "Xray Reporter: Test execution completed"]
        ++ (XrayReporter.reportToXray env st).1
        ++ [Act.log "error" ("Failed to report to Xray: " ++ e)])
  ∧ (∀ env k, env.findOk k = false →
      (XrayClientReadOnly.findTestCase env k).2 = none
      ∧ (XrayClientFull.findTestCase env k).2 = none
      ∧ (XrayClientHybrid.findTestCase env k).2 = none
      ∧ (XrayClientReadOnly.findTestCase env k).1.countP (fun a => isHttpAction a) = 1
      ∧ (XrayClientFull.findTestCase env k).1.countP (fun a => isHttpAction a) = 1
      ∧ (XrayClientHybrid.findTestCase env k).1.countP (fun a => isHttpAction a) = 1)
  ∧ (∀ env k t, env.createIssueOk = false →
      (XrayClientFull.createTestCase env k t).2 = .error env.createErr
      ∧ (XrayClientFull.createTestCase env k t).1.countP (fun a => isCreateIssueReq a) = 1
      ∧ (XrayClientFull.createTestCase env k t).1.getLast? =
          some (Act.log "error" ("Failed to create test case " ++ k ++ ": " ++ env.createErr)))
  ∧ (∀ env k t, env.createIssueOk = false →
      (XrayClientHybrid.tryCreateTestCase { canCreateIssues := true } env k t).2.2 = none
      ∧ (XrayClientHybrid.tryCreateTestCase { canCreateIssues := true } env k t).1
          = { canCreateIssues := false }
      ∧ (XrayClientHybrid.tryCreateTestCase { canCreateIssues := true } env k t).2.1.countP
          (fun a => isCreateIssueReq a) = 1
      ∧ (XrayClientHybrid.tryCreateTestCase { canCreateIssues := true } env k t).2.1.getLast?
          = some (Act.log "info" "Disabling test case creation for future attempts"))
  ∧ (∀ env k s, env.findOk k = true → env.putOk k = false →
      (XrayClientHybrid.updateTestCaseStatus env k s).2 = false
      ∧ (XrayClientHybrid.updateTestCaseStatus env k s).1.countP (fun a => isPutReq a) = 1
      ∧ (XrayClientHybrid.updateTestCaseStatus env k s).1.getLast? =
          some (Act.log "error" ("Failed to update test case " ++ k ++ " status")))
  ∧ (∀ env k, env.commentOk k = false →
      (XrayClientFull.addTestExecutionComment env k).1.countP (fun a => isCommentReq a) = 1
      ∧ (XrayClientFull.addTestExecutionComment env k).1.getLast? =
          some (Act.log "error" ("Failed to add comment to test case " ++ k)))
  ∧ (∀ env tests, (∀ t ∈ tests, env.findOk t.testKey = true) → tests ≠ [] →
      env.postExecOk = false →
      (XrayClientReadOnly.createTestExecution env tests).2 = .error env.postExecErr
      ∧ (XrayClientReadOnly.createTestExecution env tests).1.countP
          (fun a => isExecReq a) = 1)
  ∧ (∀ env tests, (∀ t ∈ tests, env.findOk t.testKey = true) → tests ≠ [] →
      env.postExecOk = false →
      (XrayClientHybrid.createTestExecution env tests).2 = none
      ∧ (XrayClientHybrid.createTestExecution env tests).1.countP
          (fun a => isExecReq a) = 1)
  ∧ (∀ env st, st.testResults ≠ [] →
      (XrayReporterHybrid.reportToXray env st).2 = .error missingUrlV2Error
      ∧ (XrayReporterHybrid.reportToXray env st).1.getLast? =
          some (Act.log "error"
            ("Failed to report test results to Xray: " ++ missingUrlV2Error))) := by
  refine ⟨?_, ?_, ?_, ?_, ?_, ?_, ?_, ?_, ?_, ?_, ?_⟩
  · intro env k h₁ h₂
    refine ⟨?_, ?_, ?_⟩ <;>
      simp [XrayClientHybrid.addTestExecutionComment, XrayClientHybrid.findTestCase,
        h₁, h₂, List.countP_cons, isCommentReq]
  · intro env tests hfind hne hpost
    have hE := ensureLoopAllFound env tests hfind
    have hzero : (XrayClientFull.ensureLoop env tests).1.countP (fun a => isExecReq a) = 0 := by
      rw [List.countP_eq_zero]
      intro a ha
      simp [hE.2 a ha]
    have hle : tests.isEmpty = false := by
      cases tests with
      | nil => exact absurd rfl hne
      | cons a l => rfl
    cases hEL : XrayClientFull.ensureLoop env tests with
    | mk tr res =>
      have hres : res = .ok tests := by
        have h₀ := hE.1
        rw [hEL] at h₀
        exact h₀
      subst hres
      have htr : tr.countP (fun a => isExecReq a) = 0 := by
        have h₀ := hzero
        rw [hEL] at h₀
        exact h₀
      have htrm : ∀ a ∈ tr, isExecReq a = false := by
        intro a ha
        have h₂ := hE.2
        rw [hEL] at h₂
        exact h₂ a ha
      refine ⟨?_, ?_, ?_⟩ <;>
        simp [XrayClientFull.createTestExecution, hEL, hle, hpost, List.countP_append,
          List.countP_cons, htr, isExecReq]
      exact fun a ha => htrm a ha
  · intro env cfg st e hv he
    unfold XrayReporter.onEnd
    rw [hv]
    simp [he]
  · intro env k h
    refine ⟨?_, ?_, ?_, ?_, ?_, ?_⟩ <;>
      simp [XrayClientReadOnly.findTestCase, XrayClientFull.findTestCase,
        XrayClientHybrid.findTestCase, h, List.countP_cons, isHttpAction]
  · intro env k t h
    refine ⟨?_, ?_, ?_⟩ <;>
      simp [XrayClientFull.createTestCase, h, List.countP_cons, isCreateIssueReq]
  · intro env k t h
    refine ⟨?_, ?_, ?_, ?_⟩ <;>
      simp [XrayClientHybrid.tryCreateTestCase, h, List.countP_cons, isCreateIssueReq]
  · intro env k s h₁ h₂
    refine ⟨?_, ?_, ?_⟩ <;>
      simp [XrayClientHybrid.updateTestCaseStatus, XrayClientHybrid.findTestCase, h₁, h₂,
        List.countP_cons, isPutReq]
  · intro env k h
    refine ⟨?_, ?_⟩ <;>
      simp [XrayClientFull.addTestExecutionComment, h, List.countP_cons, isCommentReq]
  · intro env tests hfind hne hpost
    have hv := verifyLoopFilterReadOnly env tests
    have hfil : tests.filter (fun t => env.findOk t.testKey) = tests :=
      List.filter_eq_self.mpr (fun a ha => by simp [hfind a ha])
    have hle : tests.isEmpty = false := by
      cases tests with
      | nil => exact absurd rfl hne
      | cons a l => rfl
    have hzero : (XrayClientReadOnly.verifyLoop env tests).1.countP
        (fun a => isExecReq a) = 0 := by
      rw [List.countP_eq_zero]
      intro a ha
      simp [hv.2 a ha]
    refine ⟨?_, ?_⟩ <;>
      simp [XrayClientReadOnly.createTestExecution, hv.1, hfil, hle, hpost,
        List.countP_append, List.countP_cons, hzero, isExecReq]
    exact fun a ha => hv.2 a ha
  · intro env tests hfind hne hpost
    have hv := verifyLoopFilterHybrid env tests
    have hfil : tests.filter (fun t => env.findOk t.testKey) = tests :=
      List.filter_eq_self.mpr (fun a ha => by simp [hfind a ha])
    have hle : tests.isEmpty = false := by
      cases tests with
      | nil => exact absurd rfl hne
      | cons a l => rfl
    have hzero : (XrayClientHybrid.verifyLoop env tests).1.countP
        (fun a => isExecReq a) = 0 := by
      rw [List.countP_eq_zero]
      intro a ha
      simp [hv.2 a ha]
    refine ⟨?_, ?_⟩ <;>
      simp [XrayClientHybrid.createTestExecution, hv.1, hfil, hle, hpost,
        List.countP_append, List.countP_cons, hzero, isExecReq]
    exact fun a ha => hv.2 a ha
  · intro env st hne
    have hle : (st.testResults.map (fun e => e.2)).isEmpty = false := by
      cases h : st.testResults with
      | nil => exact absurd h hne
      | cons a l => rfl
    refine ⟨?_, ?_⟩ <;>
      simp [XrayReporterHybrid.reportToXray, hle]

/-- Witness for C3: concrete instances of four handler conjuncts — a
failing comment POST degrades to false, a failing execution POST rethrows
the oracle's error, onEnd absorbs the TypeError thrown by reportToXray,
and a failing creation latches the hybrid client. -/
theorem error_handlers_log_and_continue_or_throw_witness :
  (XrayClientHybrid.addTestExecutionComment envNoComment "XSP-1").2 = false
  ∧ (XrayClientFull.createTestExecution envNoPostExec [sampleResult]).2 = .error "post failed"
  ∧ XrayReporter.onEnd envAllOk cfgOk sampleState =
      [Act.log "info" "Xray Reporter: Test execution completed"]
      ++ (XrayReporter.reportToXray envAllOk sampleState).1
      ++ [Act.log "error" ("Failed to report to Xray: " ++ missingUrlV2Error)]
  ∧ (XrayClientHybrid.tryCreateTestCase { canCreateIssues := true } envNoCreate "XSP-9" "t").1
      = { canCreateIssues := false } :=
  ⟨(error_handlers_log_and_continue_or_throw.1 envNoComment "XSP-1" rfl rfl).1,
   (error_handlers_log_and_continue_or_throw.2.1 envNoPostExec [sampleResult]
      (by intro t ht; rfl) (by simp) rfl).1,
   error_handlers_log_and_continue_or_throw.2.2.1 envAllOk cfgOk sampleState
      missingUrlV2Error rfl rfl,
   (error_handlers_log_and_continue_or_throw.2.2.2.2.2.1 envNoCreate "XSP-9" "t" rfl).2.1⟩

/-- C4: on a report in which no test key resolves to an existing issue,
the read-only client's createTestExecution throws the error the claim
quotes while the hybrid client logs a warning and returns null, neither
sending an execution-creation request; and whichever variant does send
one, its payload lists exactly the tests whose test case was found. -/
theorem readonly_hybrid_degradation :
  (∀ env tests, (∀ t ∈ tests, env.findOk t.testKey = false) →
    (XrayClientReadOnly.createTestExecution env tests).2
      = .error "No existing test cases found to execute"
    ∧ (XrayClientHybrid.createTestExecution env tests).2 = none
    ∧ (Act.log "warn" "No existing test cases found for execution")
        ∈ (XrayClientHybrid.createTestExecution env tests).1
    ∧ (∀ a ∈ (XrayClientReadOnly.createTestExecution env tests).1, isExecReq a = false)
    ∧ (∀ a ∈ (XrayClientHybrid.createTestExecution env tests).1, isExecReq a = false))
  ∧ (∀ env tests ks, Act.postExec ks ∈ (XrayClientReadOnly.createTestExecution env tests).1 →
      ks = (tests.filter (fun t => env.findOk t.testKey)).map (fun t => t.testKey))
  ∧ (∀ env tests ks, Act.postExec ks ∈ (XrayClientHybrid.createTestExecution env tests).1 →
      ks = (tests.filter (fun t => env.findOk t.testKey)).map (fun t => t.testKey)) := by
  refine ⟨?_, ?_, ?_⟩
  · intro env tests hall
    have hro := verifyLoopFilterReadOnly env tests
    have hhy := verifyLoopFilterHybrid env tests
    have hfil : tests.filter (fun t => env.findOk t.testKey) = [] := by
      simp only [List.filter_eq_nil_iff]
      intro a ha
      simp [hall a ha]
    refine ⟨?_, ?_, ?_, ?_, ?_⟩
    · simp [XrayClientReadOnly.createTestExecution, hro.1, hfil]
    · simp [XrayClientHybrid.createTestExecution, hhy.1, hfil]
    · simp [XrayClientHybrid.createTestExecution, hhy.1, hfil]
    · intro a ha
      simp only [XrayClientReadOnly.createTestExecution, hro.1, hfil, List.isEmpty_nil,
        if_true, List.mem_append, List.mem_singleton] at ha
      rcases ha with ha | ha
      · exact hro.2 a ha
      · rw [ha]; rfl
    · intro a ha
      simp only [XrayClientHybrid.createTestExecution, hhy.1, hfil, List.isEmpty_nil,
        if_true, List.mem_append, List.mem_singleton] at ha
      rcases ha with ha | ha
      · exact hhy.2 a ha
      · rw [ha]; rfl
  · intro env tests ks hmem
    have hro := verifyLoopFilterReadOnly env tests
    by_cases he : (XrayClientReadOnly.verifyLoop env tests).2.isEmpty
    · simp only [XrayClientReadOnly.createTestExecution, he, if_true, List.mem_append,
        List.mem_singleton] at hmem
      rcases hmem with hmem | hmem
      · have := hro.2 _ hmem
        simp [isExecReq] at this
      · exact absurd hmem (by simp)
    · simp only [XrayClientReadOnly.createTestExecution, he, if_false] at hmem
      cases hp : env.postExecOk <;>
        rw [hp] at hmem <;>
        simp only [if_true, if_false, Bool.false_eq_true, List.mem_append, List.mem_cons,
          List.mem_singleton] at hmem <;>
        rcases hmem with hmem | hmem | hmem <;>
        first
        | (have hpe := hro.2 _ hmem
           simp [isExecReq] at hpe)
        | (have hks : ks = (XrayClientReadOnly.verifyLoop env tests).2.map (fun t => t.testKey) := by
             cases hmem
             rfl
           rw [hks, hro.1])
        | exact absurd hmem (by simp)
  · intro env tests ks hmem
    have hhy := verifyLoopFilterHybrid env tests
    by_cases he : (XrayClientHybrid.verifyLoop env tests).2.isEmpty
    · simp only [XrayClientHybrid.createTestExecution, he, if_true, List.mem_append,
        List.mem_singleton] at hmem
      rcases hmem with hmem | hmem
      · have := hhy.2 _ hmem
        simp [isExecReq] at this
      · exact absurd hmem (by simp)
    · simp only [XrayClientHybrid.createTestExecution, he, if_false] at hmem
      cases hp : env.postExecOk <;>
        rw [hp] at hmem <;>
        simp only [if_true, if_false, Bool.false_eq_true, List.mem_append, List.mem_cons,
          List.mem_singleton] at hmem <;>
        rcases hmem with hmem | hmem | hmem <;>
        first
        | (have hpe := hhy.2 _ hmem
           simp [isExecReq] at hpe)
        | (have hks : ks = (XrayClientHybrid.verifyLoop env tests).2.map (fun t => t.testKey) := by
             cases hmem
             rfl
           rw [hks, hhy.1])
        | exact absurd hmem (by simp)

/-- Witness for C4: with no key resolving, the read-only variant throws
and the hybrid variant returns null; with every key resolving, the posted
payload keeps the whole list. -/
theorem readonly_hybrid_degradation_witness :
  (XrayClientReadOnly.createTestExecution envNoFind [sampleResult]).2
    = .error "No existing test cases found to execute"
  ∧ (XrayClientHybrid.createTestExecution envNoFind [sampleResult]).2 = none
  ∧ ["XSP-1"] = ([sampleResult].filter
      (fun t => envAllOk.findOk t.testKey)).map (fun t => t.testKey) :=
  ⟨(readonly_hybrid_degradation.1 envNoFind [sampleResult] (by intro t ht; rfl)).1,
   (readonly_hybrid_degradation.1 envNoFind [sampleResult] (by intro t ht; rfl)).2.1,
   readonly_hybrid_degradation.2.2 envAllOk [sampleResult] ["XSP-1"] (by decide)⟩

/-- C1: the reconciliation flow never reaches the status update.  On a
concrete run with one PASSED result and every request permitted, the basic
reporter's reportToXray throws the getJiraApiUrlV2 TypeError at
XrayClientReadOnly.getInstance(), before any HTTP request: no execution is
created and no status-update request is ever issued (the
updateTestExecutionStatus method the reporter would then call is also
absent from XrayClientReadOnly).  The find-or-create half of the claim
does hold of the XrayClientFull.createTestExecution method body: when not
a single test case can be found or created it throws without sending any
execution-creation request. -/
theorem basic_reporter_missing_status_update :
  (XrayReporter.reportToXray envAllOk sampleState).2 = Except.error missingUrlV2Error
  ∧ (XrayReporter.reportToXray envAllOk sampleState).1.countP (fun a => isHttpAction a) = 0
  ∧ (XrayClientFull.createTestExecution envNothing [sampleResult]).2
      = Except.error "create failed"
  ∧ (XrayClientFull.createTestExecution envNothing [sampleResult]).1.countP
      (fun a => isExecReq a) = 0 :=
  ⟨rfl, by decide, rfl, by decide⟩

/-- C2: the reconciliation sequence of the hybrid reporter never executes.
On a concrete run with one collected result and every request permitted,
reportToXray throws the getJiraApiUrlV2 TypeError at
XrayClientHybrid.getInstance() and issues no HTTP request at all — no
status update, no result comment, no execution creation — so no comment is
ever posted after (or before) an execution-creating call; in the method
body the comment loop of step 2 moreover precedes the createTestExecution
call of step 3, the reverse of the claimed order. -/
theorem hybrid_reporter_reconciliation_unreachable :
  (XrayReporterHybrid.reportToXray envAllOk sampleState).2 = Except.error missingUrlV2Error
  ∧ (XrayReporterHybrid.reportToXray envAllOk sampleState).1.countP
      (fun a => isHttpAction a) = 0 :=
  ⟨rfl, by decide⟩
